import Mathlib

/-!
Verification development for the djwarrant Cognito authentication backend
(`src/djwarrant/backend.py`, `src/djwarrant/views/profile.py`,
`src/webapp/settings.py`).

The Python code is shallowly embedded: dictionaries become association
lists with Python-dict insertion semantics (assigning to an existing key
replaces its value in place, a new key is appended), exceptions become
`Except`, and calls into the external AWS Cognito SDK become explicit
outcome parameters.
-/

namespace Djwarrant

/-! ## Association lists with Python dict semantics -/

/-- Lookup a key in an association list (Python `d.get(k)` / `d[k]`). -/
def lookupAssoc (d : List (String × String)) (k : String) : Option String :=
  match d with
  | [] => none
  | (k', v) :: rest => if k' = k then some v else lookupAssoc rest k

/-- Python dict assignment `d[k] = v`: replace the value in place when the
key exists, append otherwise. -/
def insertAssoc (d : List (String × String)) (k : String) (v : String) :
    List (String × String) :=
  match d with
  | [] => [(k, v)]
  | (k', v') :: rest =>
      if k' = k then (k', v) :: rest else (k', v') :: insertAssoc rest k v

/-- Apply a sequence of Python dict assignments (`for k, v in u: d[k] = v`,
also the shape of `setattr(user, k, v)` over model fields followed by
`save()`). -/
def setFields (d u : List (String × String)) : List (String × String) :=
  u.foldl (fun acc p => insertAssoc acc p.1 p.2) d

/-! ## Errors raised by the provider SDK

`backend.py` catches `(Boto3Error, ClientError)`.  A `ClientError` carries
`response['Error']['Code']`; a plain `Boto3Error` does not. -/

/-- An exception caught by the `except (Boto3Error, ClientError)` clauses. -/
inductive CaughtError where
  | clientError (code : String)
  | boto3Error
deriving Repr, DecidableEq

/-- An exception escaping a backend operation: either the original caught
provider error re-raised, or the `AttributeError` produced when
`handle_error_response` reads `.response` off an error that has none. -/
inductive PyExc where
  | caught (e : CaughtError)
  | attributeError
deriving Repr, DecidableEq

/-- `AbstractCognitoBackend.UNAUTHORIZED_ERROR_CODE` (backend.py line 57). -/
def UNAUTHORIZED_ERROR_CODE : String := "NotAuthorizedException"

/-- `AbstractCognitoBackend.USER_NOT_FOUND_ERROR_CODE` (backend.py line 59). -/
def USER_NOT_FOUND_ERROR_CODE : String := "UserNotFoundException"

/-- `AbstractCognitoBackend.handle_error_response` (backend.py lines 89-96).
Reads `error.response['Error']['Code']` — an `AttributeError` for a plain
`Boto3Error` — and then returns `None` (modelled `.ok ()`) for the two
designated codes, re-raising the error otherwise. -/
def handle_error_response (error : CaughtError) : Except PyExc Unit :=
  match error with
  | .boto3Error => .error .attributeError
  | .clientError code =>
      if code = UNAUTHORIZED_ERROR_CODE ∨ code = USER_NOT_FOUND_ERROR_CODE then
        .ok ()
      else
        .error (.caught (.clientError code))

/-! ## Attribute mapping -/

/-- The fallback attribute mapping hard-coded in
`CognitoUser.COGNITO_ATTR_MAPPING` (backend.py lines 18-24), used when the
settings module defines none. -/
def DEFAULT_ATTR_MAPPING : List (String × String) :=
  [("email", "email"), ("given_name", "first_name"),
   ("family_name", "last_name")]

/-- `COGNITO_ATTR_MAPPING` as configured in `src/webapp/settings.py`:
the three standard attributes plus two custom API-key attributes. -/
def SETTINGS_ATTR_MAPPING : List (String × String) :=
  [("email", "email"), ("given_name", "first_name"),
   ("family_name", "last_name"), ("custom:api_key", "api_key"),
   ("custom:api_key_id", "api_key_id")]

/-- Modelled from the spec: `cognito_to_dict` lives in
`djwarrant/utils.py`, which is not under `src/`.  Per §4.1 of the spec, it
turns the provider's ordered attribute list into a dictionary, renaming
every provider key present in the mapping to its local field name and
keeping leftover keys under their raw names; values pass through
unchanged.  Duplicate resulting keys collapse by Python dict assignment. -/
def cognito_to_dict (attribute_list : List (String × String))
    (attr_map : List (String × String)) : List (String × String) :=
  attribute_list.foldl
    (fun d p => insertAssoc d ((lookupAssoc attr_map p.1).getD p.1) p.2) []

/-- Modelled from the spec: the field names of the local user model
(`CognitoUser.user_class._meta.get_fields()`); the model itself is Django
framework code, not under `src/`.  §3 of the spec gives the structured
fields as username, email, first name, last name (plus the framework's
bookkeeping columns of the default user model). -/
def defaultDjangoFields : List String :=
  ["id", "password", "last_login", "is_superuser", "username",
   "first_name", "last_name", "email", "is_staff", "is_active",
   "date_joined", "groups", "user_permissions"]

/-- The half of the renamed attribute dict whose keys are local model
fields: this is `user_attrs` after the pop loop of
`CognitoUser.get_user_obj` (backend.py lines 26-34). -/
def mappedFields (djangoFields : List String)
    (attribute_list attr_map : List (String × String)) :
    List (String × String) :=
  (cognito_to_dict attribute_list attr_map).filter
    (fun p => djangoFields.contains p.1)

/-- The complementary half: `extra_attrs` built by the pop loop of
`CognitoUser.get_user_obj` (backend.py lines 31-34). -/
def extraFields (djangoFields : List String)
    (attribute_list attr_map : List (String × String)) :
    List (String × String) :=
  (cognito_to_dict attribute_list attr_map).filter
    (fun p => !djangoFields.contains p.1)

/-! ## Local user store -/

/-- A persisted row of the local user store: the unique username plus the
structured fields actually written to the database. -/
structure StoredUser where
  username : String
  fields : List (String × String)
deriving Repr, DecidableEq

/-- The local user store (`CognitoUser.user_class.objects`). -/
abbrev UserStore := List StoredUser

/-- `objects.get(username=username)` / the lookup half of
`update_or_create`. -/
def storeGet (s : UserStore) (username : String) : Option StoredUser :=
  s.find? (fun r => r.username = username)

/-- Persist an updated row back over the row with the same username
(`user.save()` on an existing instance). -/
def storeReplace (s : UserStore) (username : String) (r : StoredUser) :
    UserStore :=
  s.map (fun x => if x.username = username then r else x)

/-- The user instance returned by `get_user_obj`: the persisted part plus
the dynamic (non-field) attributes attached with `setattr`, plus the token
attributes the backend later assigns. -/
structure UserObj where
  username : String
  fields : List (String × String)
  dynamic : List (String × String)
  access_token : String := ""
  id_token : String := ""
  refresh_token : String := ""
deriving Repr, DecidableEq

/-- `CognitoUser.get_user_obj` (backend.py lines 26-50).  The renamed
attribute dict is split by membership in the local model's field list;
`COGNITO_CREATE_UNKNOWN_USERS` (default `True`) selects between
`update_or_create` and get-then-save-or-`None`; extra attributes are
attached to the returned instance only, never saved. -/
def get_user_obj (djangoFields : List String) (createUnknownUsers : Bool)
    (store : UserStore) (username : String)
    (attribute_list attr_map : List (String × String)) :
    UserStore × Option UserObj :=
  let user_attrs := mappedFields djangoFields attribute_list attr_map
  let extra_attrs := extraFields djangoFields attribute_list attr_map
  if createUnknownUsers then
    match storeGet store username with
    | some rec =>
        let rec' : StoredUser := ⟨rec.username, setFields rec.fields user_attrs⟩
        (storeReplace store username rec',
         some ⟨rec'.username, rec'.fields, extra_attrs, "", "", ""⟩)
    | none =>
        let rec' : StoredUser := ⟨username, user_attrs⟩
        (store ++ [rec'],
         some ⟨username, user_attrs, extra_attrs, "", "", ""⟩)
  else
    match storeGet store username with
    | some rec =>
        let rec' : StoredUser := ⟨rec.username, setFields rec.fields user_attrs⟩
        (storeReplace store username rec',
         some ⟨rec'.username, rec'.fields, extra_attrs, "", "", ""⟩)
    | none => (store, none)

/-! ## The authentication backend -/

/-- Outcome of the external SDK call `cognito_user.authenticate(password)`:
either the provider issues the three session tokens, or it raises one of
the caught exception types. -/
inductive ProviderAuth where
  | success (access_token id_token refresh_token : String)
  | failure (e : CaughtError)
deriving Repr, DecidableEq

/-- `AbstractCognitoBackend.authenticate` (backend.py lines 62-87).  On a
caught provider error the result is `handle_error_response`; on success
the user object from `get_user_obj` (via `cognito_user.get_user()`, whose
attribute list is the `attribute_list` parameter) gets the three tokens
attached when it is not `None`. -/
def abstractAuthenticate (djangoFields : List String)
    (createUnknownUsers : Bool) (attr_map : List (String × String))
    (provider : ProviderAuth) (attribute_list : List (String × String))
    (store : UserStore) (username : String) :
    Except PyExc (UserStore × Option UserObj) :=
  match provider with
  | .failure e => (handle_error_response e).map (fun _ => (store, none))
  | .success a i r =>
      match get_user_obj djangoFields createUnknownUsers store username
          attribute_list attr_map with
      | (store', some u) =>
          .ok (store', some { u with access_token := a, id_token := i,
                                     refresh_token := r })
      | (store', none) => .ok (store', none)

/-! ## Session binder -/

/-- The request session: key/value data plus whether `session.save()` was
called during the request. -/
structure SessionState where
  data : List (String × String)
  saved : Bool
deriving Repr, DecidableEq

/-- `CognitoBackend.authenticate` (backend.py lines 100-112): run the
abstract backend, and when a user comes back store the three tokens under
their session keys and persist the session. -/
def cognitoBackendAuthenticate (djangoFields : List String)
    (createUnknownUsers : Bool) (attr_map : List (String × String))
    (provider : ProviderAuth) (attribute_list : List (String × String))
    (store : UserStore) (username : String) (sess : SessionState) :
    Except PyExc (UserStore × SessionState × Option UserObj) :=
  match abstractAuthenticate djangoFields createUnknownUsers attr_map
      provider attribute_list store username with
  | .error e => .error e
  | .ok (store', some u) =>
      let d := insertAssoc sess.data "ACCESS_TOKEN" u.access_token
      let d := insertAssoc d "ID_TOKEN" u.id_token
      let d := insertAssoc d "REFRESH_TOKEN" u.refresh_token
      .ok (store', ⟨d, true⟩, some u)
  | .ok (store', none) => .ok (store', sess, none)

/-- `CognitoBackend.register` (backend.py lines 114-144): the sign-up call
is wrapped in the same try/except, so a caught error goes through
`handle_error_response` (returning `None`, modelled `.ok none`); a
successful call returns the provider response. -/
def register (outcome : Except CaughtError String) :
    Except PyExc (Option String) :=
  match outcome with
  | .ok resp => .ok (some resp)
  | .error e => (handle_error_response e).map (fun _ => none)

/-- `CognitoBackend.validate_user` (backend.py lines 146-158): the
`confirm_sign_up` call has no try/except, so any provider error propagates
unchanged. -/
def validate_user (outcome : Except CaughtError Unit) : Except PyExc Unit :=
  match outcome with
  | .ok _ => .ok ()
  | .error e => .error (.caught e)

/-! ## Views (`src/djwarrant/views/profile.py`) -/

/-- `SignUpView.form_valid` (profile.py lines 79-89): calls `c.register`
directly with no try/except; `true` models rendering the success message
and redirect. -/
def signUpFormValid (registerOutcome : Except CaughtError Unit) :
    Except PyExc Bool :=
  match registerOutcome with
  | .ok _ => .ok true
  | .error e => .error (.caught e)

/-- `UpdateProfileView.form_valid` (profile.py lines 57-61): calls
`c.update_profile` directly with no try/except. -/
def updateProfileFormValid (updateOutcome : Except CaughtError Unit) :
    Except PyExc Bool :=
  match updateOutcome with
  | .ok _ => .ok true
  | .error e => .error (.caught e)

/-- `TokenMixin.dispatch` (profile.py lines 22-28): the request proceeds
only when `request.session.get('REFRESH_TOKEN')` is truthy (present and
non-empty). -/
def tokenMixinAllows (sess : SessionState) : Bool :=
  match lookupAssoc sess.data "REFRESH_TOKEN" with
  | some v => v ≠ ""
  | none => false

/-- `LogoutView.dispatch` (profile.py lines 64-69): `request.session.delete()`
discards the entire session, leaving an empty one for what follows. -/
def logoutDispatch (_sess : SessionState) : SessionState :=
  ⟨[], false⟩

/-! ## The spec's Attribute Mapper contract (§4.1), for refinement claims -/

/-- The spec's mapped-fields output: every provider key present in the
mapping, renamed to its local field name, carrying its value. -/
def specMapped (attribute_list attr_map : List (String × String)) :
    List (String × String) :=
  attribute_list.filterMap
    (fun p => (lookupAssoc attr_map p.1).map (fun f => (f, p.2)))

/-- The spec's extra-fields output: every leftover provider key (not in
the mapping) with its raw value. -/
def specExtra (attribute_list attr_map : List (String × String)) :
    List (String × String) :=
  attribute_list.filter (fun p => (lookupAssoc attr_map p.1).isNone)

/-! ## Helper lemmas about the dict embedding -/

theorem lookupAssoc_insert_self (d : List (String × String)) (k v : String) :
    lookupAssoc (insertAssoc d k v) k = some v := by
  induction d with
  | nil => simp [insertAssoc, lookupAssoc]
  | cons p rest ih =>
      by_cases h : p.1 = k
      · simp [insertAssoc, lookupAssoc, h]
      · simp [insertAssoc, lookupAssoc, h, ih]

theorem lookupAssoc_insert_of_ne (d : List (String × String)) (k v j : String)
    (h : j ≠ k) : lookupAssoc (insertAssoc d k v) j = lookupAssoc d j := by
  induction d with
  | nil => simp [insertAssoc, lookupAssoc, Ne.symm h]
  | cons p rest ih =>
      by_cases hp : p.1 = k
      · simp [insertAssoc, lookupAssoc, hp, Ne.symm h]
      · by_cases hj : p.1 = j <;>
          simp [insertAssoc, lookupAssoc, hp, hj, h, Ne.symm h, ih]

theorem lookupAssoc_eq_none_of_not_mem (d : List (String × String))
    (k : String) (h : k ∉ d.map Prod.fst) : lookupAssoc d k = none := by
  induction d with
  | nil => rfl
  | cons p rest ih =>
      simp only [List.map_cons, List.mem_cons] at h
      push_neg at h
      simp [lookupAssoc, Ne.symm h.1, ih h.2]

theorem keys_insertAssoc (d : List (String × String)) (k v : String) :
    (insertAssoc d k v).map Prod.fst =
      if k ∈ d.map Prod.fst then d.map Prod.fst
      else d.map Prod.fst ++ [k] := by
  induction d with
  | nil => simp [insertAssoc]
  | cons p rest ih =>
      by_cases h : p.1 = k
      · simp [insertAssoc, h]
      · simp only [insertAssoc, if_neg h, List.map_cons, List.mem_cons]
        rw [ih]
        by_cases hm : k ∈ rest.map Prod.fst
        · simp [hm, Ne.symm h]
        · simp [hm, Ne.symm h]

theorem keys_insertAssoc_nodup (d : List (String × String)) (k v : String)
    (h : (d.map Prod.fst).Nodup) :
    ((insertAssoc d k v).map Prod.fst).Nodup := by
  rw [keys_insertAssoc]
  by_cases hm : k ∈ d.map Prod.fst
  · simpa [hm] using h
  · simpa [hm, List.nodup_append] using h

theorem cognito_to_dict_keys_nodup (L M : List (String × String)) :
    ((cognito_to_dict L M).map Prod.fst).Nodup := by
  suffices h : ∀ d : List (String × String), (d.map Prod.fst).Nodup →
      ((L.foldl
          (fun d p => insertAssoc d ((lookupAssoc M p.1).getD p.1) p.2)
          d).map Prod.fst).Nodup by
    exact h [] (by simp)
  induction L with
  | nil => intro d hd; simpa using hd
  | cons p rest ih =>
      intro d hd
      exact ih _ (keys_insertAssoc_nodup _ _ _ hd)

theorem mappedFields_keys_nodup (djangoFields : List String)
    (L M : List (String × String)) :
    ((mappedFields djangoFields L M).map Prod.fst).Nodup :=
  ((List.filter_sublist _).map Prod.fst).nodup (cognito_to_dict_keys_nodup L M)

theorem lookup_setFields_of_not_mem (u : List (String × String)) :
    ∀ d : List (String × String), ∀ k : String, k ∉ u.map Prod.fst →
    lookupAssoc (setFields d u) k = lookupAssoc d k := by
  induction u with
  | nil => intro d k _; rfl
  | cons p rest ih =>
      intro d k h
      simp only [List.map_cons, List.mem_cons] at h
      push_neg at h
      show lookupAssoc (setFields (insertAssoc d p.1 p.2) rest) k = _
      rw [ih _ k h.2, lookupAssoc_insert_of_ne _ _ _ _ h.1]

theorem lookup_setFields_of_mem (u : List (String × String)) :
    ∀ d : List (String × String), ∀ k : String,
    (u.map Prod.fst).Nodup → k ∈ u.map Prod.fst →
    lookupAssoc (setFields d u) k = lookupAssoc u k := by
  induction u with
  | nil => intro d k _ h; simp at h
  | cons p rest ih =>
      intro d k hnd hk
      simp only [List.map_cons, List.nodup_cons] at hnd
      show lookupAssoc (setFields (insertAssoc d p.1 p.2) rest) k = _
      by_cases h : k = p.1
      · have hk' : k ∉ rest.map Prod.fst := by rw [h]; exact hnd.1
        rw [lookup_setFields_of_not_mem rest _ k hk', h,
            lookupAssoc_insert_self]
        simp [lookupAssoc]
      · simp only [List.map_cons, List.mem_cons] at hk
        rcases hk with hk | hk
        · exact absurd hk h
        · rw [ih _ k hnd.2 hk]
          simp [lookupAssoc, Ne.symm h]

theorem storeGet_replace (s : UserStore) (u : String) (r : StoredUser)
    (hr : r.username = u) (hs : (storeGet s u).isSome) :
    storeGet (storeReplace s u r) u = some r := by
  induction s with
  | nil => simp [storeGet] at hs
  | cons x rest ih =>
      by_cases hx : x.username = u
      · simp only [storeReplace, List.map_cons, if_pos hx, storeGet]
        exact List.find?_cons_of_pos _ (by simp [hr])
      · simp only [storeReplace, List.map_cons, if_neg hx, storeGet]
        rw [List.find?_cons_of_neg _ (by simp [hx])]
        have hs' : (storeGet rest u).isSome := by
          have hrw : storeGet (x :: rest) u = storeGet rest u := by
            simp only [storeGet]
            exact List.find?_cons_of_neg _ (by simp [hx])
          rw [hrw] at hs
          exact hs
        exact ih hs'

theorem get_user_obj_found (djangoFields : List String)
    (createUnknownUsers : Bool) (store : UserStore) (username : String)
    (attribute_list attr_map : List (String × String)) (rec : StoredUser)
    (hs : storeGet store username = some rec) :
    get_user_obj djangoFields createUnknownUsers store username
        attribute_list attr_map
      = (storeReplace store username
           ⟨rec.username,
            setFields rec.fields
              (mappedFields djangoFields attribute_list attr_map)⟩,
         some ⟨rec.username,
               setFields rec.fields
                 (mappedFields djangoFields attribute_list attr_map),
               extraFields djangoFields attribute_list attr_map,
               "", "", ""⟩) := by
  cases createUnknownUsers <;> simp [get_user_obj, hs]

theorem get_user_obj_create (djangoFields : List String) (store : UserStore)
    (username : String) (attribute_list attr_map : List (String × String))
    (hs : storeGet store username = none) :
    get_user_obj djangoFields true store username attribute_list attr_map
      = (store ++ [⟨username, mappedFields djangoFields attribute_list attr_map⟩],
         some ⟨username, mappedFields djangoFields attribute_list attr_map,
               extraFields djangoFields attribute_list attr_map,
               "", "", ""⟩) := by
  simp [get_user_obj, hs]

theorem get_user_obj_missing (djangoFields : List String) (store : UserStore)
    (username : String) (attribute_list attr_map : List (String × String))
    (hs : storeGet store username = none) :
    get_user_obj djangoFields false store username attribute_list attr_map
      = (store, none) := by
  simp [get_user_obj, hs]

theorem extraKeys_not_mapped (djangoFields : List String)
    (attribute_list attr_map : List (String × String)) (k : String)
    (hk : k ∈ (extraFields djangoFields attribute_list attr_map).map Prod.fst) :
    k ∉ (mappedFields djangoFields attribute_list attr_map).map Prod.fst := by
  intro hmem
  obtain ⟨p, hp, hpk⟩ := List.mem_map.1 hk
  obtain ⟨q, hq, hqk⟩ := List.mem_map.1 hmem
  rw [extraFields, List.mem_filter] at hp
  rw [mappedFields, List.mem_filter] at hq
  have h1 : djangoFields.contains k = false := by
    have h := hp.2
    rw [hpk] at h
    simpa using h
  have h2 : djangoFields.contains k = true := by
    have h := hq.2
    rw [hqk] at h
    exact h
  rw [h1] at h2
  exact Bool.noConfusion h2

/-! ## Claims -/

/-- C1: when the provider raises an error whose kind (code) is
"not authorized" or "user not found", `authenticate` returns `None` and the
local store is untouched; when the provider raises an error of any other
kind (code), that error propagates unchanged, and no store write happens. -/
theorem c1_authenticate_error_policy (djangoFields : List String)
    (createUnknownUsers : Bool) (attr_map attribute_list : List (String × String))
    (store : UserStore) (username : String) (code : String) :
    ((code = UNAUTHORIZED_ERROR_CODE ∨ code = USER_NOT_FOUND_ERROR_CODE) →
      abstractAuthenticate djangoFields createUnknownUsers attr_map
        (.failure (.clientError code)) attribute_list store username
        = .ok (store, none)) ∧
    (¬ (code = UNAUTHORIZED_ERROR_CODE ∨ code = USER_NOT_FOUND_ERROR_CODE) →
      abstractAuthenticate djangoFields createUnknownUsers attr_map
        (.failure (.clientError code)) attribute_list store username
        = .error (.caught (.clientError code))) := by
  constructor
  · intro h
    simp [abstractAuthenticate, handle_error_response, h, Except.map]
  · intro h
    simp [abstractAuthenticate, handle_error_response, h, Except.map]

/-- Witness for C1: a concrete suppressed code and a concrete propagated
code. -/
theorem c1_authenticate_error_policy_witness :
    abstractAuthenticate defaultDjangoFields true DEFAULT_ATTR_MAPPING
      (.failure (.clientError "NotAuthorizedException")) [] [] "alice"
      = .ok ([], none) ∧
    abstractAuthenticate defaultDjangoFields true DEFAULT_ATTR_MAPPING
      (.failure (.clientError "ThrottlingException")) [] [] "alice"
      = .error (.caught (.clientError "ThrottlingException")) :=
  ⟨(c1_authenticate_error_policy defaultDjangoFields true DEFAULT_ATTR_MAPPING
      [] [] "alice" "NotAuthorizedException").1 (Or.inl rfl),
   (c1_authenticate_error_policy defaultDjangoFields true DEFAULT_ATTR_MAPPING
      [] [] "alice" "ThrottlingException").2 (by decide)⟩

/-- C3: with auto-provisioning disabled and no pre-existing local record,
`authenticate` returns `None` even on provider success, and the store is
returned unchanged (no record created). -/
theorem c3_no_autoprovision_returns_none (djangoFields : List String)
    (attr_map attribute_list : List (String × String)) (store : UserStore)
    (username : String) (a i r : String)
    (h : storeGet store username = none) :
    abstractAuthenticate djangoFields false attr_map
      (.success a i r) attribute_list store username = .ok (store, none) := by
  simp [abstractAuthenticate, get_user_obj, h]

/-- Witness for C3: concrete empty store. -/
theorem c3_no_autoprovision_returns_none_witness :
    abstractAuthenticate defaultDjangoFields false DEFAULT_ATTR_MAPPING
      (.success "a" "i" "r") [("email", "a@x.com")] [] "alice"
      = .ok ([], none) :=
  c3_no_autoprovision_returns_none defaultDjangoFields DEFAULT_ATTR_MAPPING
    [("email", "a@x.com")] [] "alice" "a" "i" "r" rfl

/-- C8: after logout all three credential token keys are gone from the
session, and the token-guarded profile view denies the request. -/
theorem c8_logout_clears_tokens_and_denies (sess : SessionState) :
    lookupAssoc (logoutDispatch sess).data "ACCESS_TOKEN" = none ∧
    lookupAssoc (logoutDispatch sess).data "ID_TOKEN" = none ∧
    lookupAssoc (logoutDispatch sess).data "REFRESH_TOKEN" = none ∧
    tokenMixinAllows (logoutDispatch sess) = false := by
  simp [logoutDispatch, tokenMixinAllows, lookupAssoc]

/-- C9 counterexample: at three of the five listed provider call sites —
`validate_user`, the sign-up view and the profile-update view — the two
designated suppressible error kinds are not surfaced as `None`/empty, but
propagate as exceptions, refuting the claim that the two-tier policy holds
at every call site. -/
theorem c9_counterexample :
    validate_user (.error (.clientError "NotAuthorizedException"))
      = .error (.caught (.clientError "NotAuthorizedException")) ∧
    signUpFormValid (.error (.clientError "NotAuthorizedException"))
      = .error (.caught (.clientError "NotAuthorizedException")) ∧
    updateProfileFormValid (.error (.clientError "UserNotFoundException"))
      = .error (.caught (.clientError "UserNotFoundException")) :=
  ⟨rfl, rfl, rfl⟩

/-- C9 amended: the two-tier error policy holds at `authenticate` and
`register` (suppressible kinds yield `None`, other kinds propagate
unchanged); at `validate_user`, the sign-up view and the profile-update
view, every provider error — suppressible kinds included — propagates
unchanged. -/
theorem c9_two_tier_policy_amended (code : String) (e : CaughtError) :
    ((code = UNAUTHORIZED_ERROR_CODE ∨ code = USER_NOT_FOUND_ERROR_CODE) →
      register (.error (.clientError code)) = .ok none ∧
      ∀ djangoFields createUnknownUsers attr_map attribute_list store username,
        abstractAuthenticate djangoFields createUnknownUsers attr_map
          (.failure (.clientError code)) attribute_list store username
          = .ok (store, none)) ∧
    (¬ (code = UNAUTHORIZED_ERROR_CODE ∨ code = USER_NOT_FOUND_ERROR_CODE) →
      register (.error (.clientError code))
        = .error (.caught (.clientError code)) ∧
      ∀ djangoFields createUnknownUsers attr_map attribute_list store username,
        abstractAuthenticate djangoFields createUnknownUsers attr_map
          (.failure (.clientError code)) attribute_list store username
          = .error (.caught (.clientError code))) ∧
    (validate_user (.error e) = .error (.caught e) ∧
     signUpFormValid (.error e) = .error (.caught e) ∧
     updateProfileFormValid (.error e) = .error (.caught e)) := by
  refine ⟨?_, ?_, rfl, rfl, rfl⟩
  · intro h
    exact ⟨by simp [register, handle_error_response, h, Except.map],
      fun djF cu M L s u =>
        (c1_authenticate_error_policy djF cu M L s u code).1 h⟩
  · intro h
    exact ⟨by simp [register, handle_error_response, h, Except.map],
      fun djF cu M L s u =>
        (c1_authenticate_error_policy djF cu M L s u code).2 h⟩

/-- Witness for the amended C9: both tiers at a concrete code. -/
theorem c9_two_tier_policy_amended_witness :
    register (.error (.clientError "UserNotFoundException")) = .ok none ∧
    register (.error (.clientError "ServiceError"))
      = .error (.caught (.clientError "ServiceError")) :=
  ⟨((c9_two_tier_policy_amended "UserNotFoundException"
      CaughtError.boto3Error).1 (Or.inr rfl)).1,
   ((c9_two_tier_policy_amended "ServiceError"
      CaughtError.boto3Error).2.1 (by decide)).1⟩

/-- C10: the suppress-to-`None` branch of `handle_error_response` is
reachable only for ClientError-shaped errors carrying one of the two
designated codes; a caught error without the response structure (a plain
`Boto3Error`) makes `handle_error_response` itself raise an
`AttributeError` instead of returning `None` or re-raising the original. -/
theorem c10_handle_error_requires_response_shape (e : CaughtError)
    (h : handle_error_response e = .ok ()) :
    (∃ code, e = CaughtError.clientError code ∧
      (code = UNAUTHORIZED_ERROR_CODE ∨ code = USER_NOT_FOUND_ERROR_CODE)) ∧
    handle_error_response CaughtError.boto3Error
      = .error PyExc.attributeError := by
  refine ⟨?_, rfl⟩
  cases e with
  | boto3Error => simp [handle_error_response] at h
  | clientError code =>
      refine ⟨code, rfl, ?_⟩
      by_cases hc : code = UNAUTHORIZED_ERROR_CODE ∨
          code = USER_NOT_FOUND_ERROR_CODE
      · exact hc
      · simp [handle_error_response, hc] at h

/-- Witness for C10 at a concrete suppressed error. -/
theorem c10_handle_error_requires_response_shape_witness :
    (∃ code, CaughtError.clientError "UserNotFoundException"
        = CaughtError.clientError code ∧
      (code = UNAUTHORIZED_ERROR_CODE ∨ code = USER_NOT_FOUND_ERROR_CODE)) ∧
    handle_error_response CaughtError.boto3Error
      = .error PyExc.attributeError :=
  c10_handle_error_requires_response_shape
    (CaughtError.clientError "UserNotFoundException") rfl

/-- C2: with auto-provisioning enabled and no prior local record,
successful authentication appends exactly one record, keyed by the
username, whose persisted fields are the mapped half of the attribute
dict; on the claim's example — provider attributes email/given_name/
family_name under the default mapping — those fields are exactly
email, first_name, last_name with the given values, agreeing with the
spec's Attribute Mapper output. -/
theorem c2_autoprovision_creates_record (djangoFields : List String)
    (attr_map attribute_list : List (String × String)) (store : UserStore)
    (username a i r : String)
    (hnone : storeGet store username = none) :
    abstractAuthenticate djangoFields true attr_map (.success a i r)
        attribute_list store username
      = .ok (store ++
               [⟨username, mappedFields djangoFields attribute_list attr_map⟩],
             some ⟨username,
                   mappedFields djangoFields attribute_list attr_map,
                   extraFields djangoFields attribute_list attr_map,
                   a, i, r⟩) ∧
    mappedFields defaultDjangoFields
        [("email", "a@x.com"), ("given_name", "A"), ("family_name", "B")]
        DEFAULT_ATTR_MAPPING
      = [("email", "a@x.com"), ("first_name", "A"), ("last_name", "B")] ∧
    specMapped
        [("email", "a@x.com"), ("given_name", "A"), ("family_name", "B")]
        DEFAULT_ATTR_MAPPING
      = [("email", "a@x.com"), ("first_name", "A"), ("last_name", "B")] := by
  refine ⟨?_, rfl, rfl⟩
  simp [abstractAuthenticate,
    get_user_obj_create djangoFields store username attribute_list attr_map
      hnone]

/-- Witness for C2: a concrete run on the empty store. -/
theorem c2_autoprovision_creates_record_witness :
    abstractAuthenticate defaultDjangoFields true DEFAULT_ATTR_MAPPING
        (.success "a" "i" "r")
        [("email", "a@x.com"), ("given_name", "A"), ("family_name", "B")]
        [] "alice"
      = .ok ([] ++
               [⟨"alice",
                 mappedFields defaultDjangoFields
                   [("email", "a@x.com"), ("given_name", "A"),
                    ("family_name", "B")] DEFAULT_ATTR_MAPPING⟩],
             some ⟨"alice",
                   mappedFields defaultDjangoFields
                     [("email", "a@x.com"), ("given_name", "A"),
                      ("family_name", "B")] DEFAULT_ATTR_MAPPING,
                   extraFields defaultDjangoFields
                     [("email", "a@x.com"), ("given_name", "A"),
                      ("family_name", "B")] DEFAULT_ATTR_MAPPING,
                   "a", "i", "r"⟩) :=
  (c2_autoprovision_creates_record defaultDjangoFields DEFAULT_ATTR_MAPPING
    [("email", "a@x.com"), ("given_name", "A"), ("family_name", "B")]
    [] "alice" "a" "i" "r" rfl).1

/-- C4: with auto-provisioning disabled and an existing local record,
successful authentication saves the record with exactly the mapped
fields overwritten by the mapper output: a field name outside the
mapped-field set keeps its stored value, a mapped field name gets the
mapper's value, and the updated record sits in the store under the
username. -/
theorem c4_update_overwrites_only_mapped (djangoFields : List String)
    (attr_map attribute_list : List (String × String)) (store : UserStore)
    (username a i r : String) (rec : StoredUser)
    (hsome : storeGet store username = some rec) :
    abstractAuthenticate djangoFields false attr_map (.success a i r)
        attribute_list store username
      = .ok (storeReplace store username
               ⟨rec.username,
                setFields rec.fields
                  (mappedFields djangoFields attribute_list attr_map)⟩,
             some ⟨rec.username,
                   setFields rec.fields
                     (mappedFields djangoFields attribute_list attr_map),
                   extraFields djangoFields attribute_list attr_map,
                   a, i, r⟩) ∧
    (∀ k, k ∉ (mappedFields djangoFields attribute_list attr_map).map Prod.fst →
      lookupAssoc
          (setFields rec.fields
            (mappedFields djangoFields attribute_list attr_map)) k
        = lookupAssoc rec.fields k) ∧
    (∀ k, k ∈ (mappedFields djangoFields attribute_list attr_map).map Prod.fst →
      lookupAssoc
          (setFields rec.fields
            (mappedFields djangoFields attribute_list attr_map)) k
        = lookupAssoc (mappedFields djangoFields attribute_list attr_map) k) ∧
    storeGet
        (storeReplace store username
          ⟨rec.username,
           setFields rec.fields
             (mappedFields djangoFields attribute_list attr_map)⟩) username
      = some ⟨rec.username,
              setFields rec.fields
                (mappedFields djangoFields attribute_list attr_map)⟩ := by
  refine ⟨?_, ?_, ?_, ?_⟩
  · simp [abstractAuthenticate,
      get_user_obj_found djangoFields false store username attribute_list
        attr_map rec hsome]
  · intro k hk
    exact lookup_setFields_of_not_mem _ _ _ hk
  · intro k hk
    exact lookup_setFields_of_mem _ _ _
      (mappedFields_keys_nodup djangoFields attribute_list attr_map) hk
  · have hfind : store.find? (fun x => x.username = username) = some rec :=
      hsome
    have hu : rec.username = username := by
      simpa using List.find?_some hfind
    exact storeGet_replace store username _ hu (by rw [hsome]; rfl)

/-- Witness for C4: on a stored record with an email and a staff flag,
updating from provider attribute given_name leaves the email field
untouched. -/
theorem c4_update_overwrites_only_mapped_witness :
    lookupAssoc
        (setFields [("email", "old@x.com"), ("is_staff", "true")]
          (mappedFields defaultDjangoFields [("given_name", "A")]
            DEFAULT_ATTR_MAPPING)) "email"
      = lookupAssoc [("email", "old@x.com"), ("is_staff", "true")] "email" :=
  ((c4_update_overwrites_only_mapped defaultDjangoFields DEFAULT_ATTR_MAPPING
      [("given_name", "A")]
      [⟨"alice", [("email", "old@x.com"), ("is_staff", "true")]⟩]
      "alice" "a" "i" "r"
      ⟨"alice", [("email", "old@x.com"), ("is_staff", "true")]⟩
      rfl).2.1) "email" (by decide)

/-- C5 counterexample: with the attribute mapping configured in
`src/webapp/settings.py`, the provider key custom:api_key is present in
the mapping yet the mapping step does not put it into the mapped-fields
output (because api_key is not a local model field), and the extra-fields
output holds it renamed rather than raw — so the claimed partition
(mapping-membership based, raw leftovers) fails. -/
theorem c5_partition_counterexample :
    ¬ (mappedFields defaultDjangoFields [("custom:api_key", "K")]
          SETTINGS_ATTR_MAPPING
        = specMapped [("custom:api_key", "K")] SETTINGS_ATTR_MAPPING ∧
       extraFields defaultDjangoFields [("custom:api_key", "K")]
          SETTINGS_ATTR_MAPPING
        = specExtra [("custom:api_key", "K")] SETTINGS_ATTR_MAPPING) := by
  decide

/-- C5 amended: the mapping step partitions every entry of the renamed
attribute dictionary (rather than every raw key of the input list) into
exactly one of mapped-fields and extra-fields, by membership of the
renamed key in the local model's field list; nothing is duplicated or
dropped in the split, and keys colliding after renaming were already
merged by the dictionary, last value winning. -/
theorem c5_partition_amended (djangoFields : List String)
    (attribute_list attr_map : List (String × String)) :
    (mappedFields djangoFields attribute_list attr_map ++
       extraFields djangoFields attribute_list attr_map).Perm
      (cognito_to_dict attribute_list attr_map) ∧
    ((mappedFields djangoFields attribute_list attr_map ++
        extraFields djangoFields attribute_list attr_map).map Prod.fst).Nodup ∧
    (∀ p : String × String, p ∈ cognito_to_dict attribute_list attr_map →
       (p ∈ mappedFields djangoFields attribute_list attr_map ↔
          djangoFields.contains p.1 = true) ∧
       (p ∈ extraFields djangoFields attribute_list attr_map ↔
          djangoFields.contains p.1 = false)) := by
  have hperm :
      (mappedFields djangoFields attribute_list attr_map ++
         extraFields djangoFields attribute_list attr_map).Perm
        (cognito_to_dict attribute_list attr_map) := by
    simpa [mappedFields, extraFields] using
      List.filter_append_perm (fun p => djangoFields.contains p.1)
        (cognito_to_dict attribute_list attr_map)
  refine ⟨hperm, ?_, ?_⟩
  · exact (hperm.map Prod.fst).nodup_iff.2
      (cognito_to_dict_keys_nodup attribute_list attr_map)
  · intro p hp
    constructor
    · simp [mappedFields, List.mem_filter, hp]
    · simp [extraFields, List.mem_filter, hp]

/-- Witness for the amended C5: the renamed api_key entry lands in
extra-fields on the settings mapping. -/
theorem c5_partition_amended_witness :
    ("api_key", "K") ∈ extraFields defaultDjangoFields
      [("custom:api_key", "K")] SETTINGS_ATTR_MAPPING :=
  (((c5_partition_amended defaultDjangoFields [("custom:api_key", "K")]
      SETTINGS_ATTR_MAPPING).2.2 ("api_key", "K") (by decide)).2).mpr
    (by decide)

/-- C6: the extra (unmapped-to-a-model-field) attributes are attached to
the returned user object as dynamic data only: their keys are disjoint
from the persisted field set written by the upsert, looking one up in
that field set gives nothing, and after a successful authentication the
returned object's persisted fields hold, at each extra key, exactly what
the store already had (nothing new written there). -/
theorem c6_extra_attrs_never_persisted (djangoFields : List String)
    (createUnknownUsers : Bool)
    (attr_map attribute_list : List (String × String)) (store : UserStore)
    (username a i r : String) :
    (∀ k, k ∈ (extraFields djangoFields attribute_list attr_map).map Prod.fst →
       k ∉ (mappedFields djangoFields attribute_list attr_map).map Prod.fst ∧
       lookupAssoc (mappedFields djangoFields attribute_list attr_map) k
         = none) ∧
    (∀ store' u,
       abstractAuthenticate djangoFields createUnknownUsers attr_map
           (.success a i r) attribute_list store username
         = .ok (store', some u) →
       u.dynamic = extraFields djangoFields attribute_list attr_map ∧
       ∀ k, k ∈ (extraFields djangoFields attribute_list attr_map).map Prod.fst →
         lookupAssoc u.fields k =
           (match storeGet store username with
            | some rec => lookupAssoc rec.fields k
            | none => none)) := by
  refine ⟨fun k hk =>
    ⟨extraKeys_not_mapped djangoFields attribute_list attr_map k hk,
     lookupAssoc_eq_none_of_not_mem _ _
       (extraKeys_not_mapped djangoFields attribute_list attr_map k hk)⟩, ?_⟩
  intro store' u h
  cases hs : storeGet store username with
  | some rec =>
      simp only [abstractAuthenticate,
        get_user_obj_found djangoFields createUnknownUsers store username
          attribute_list attr_map rec hs, Except.ok.injEq, Prod.mk.injEq,
        Option.some.injEq] at h
      obtain ⟨-, hu⟩ := h
      subst hu
      refine ⟨rfl, ?_⟩
      intro k hk
      simp only [hs]
      exact lookup_setFields_of_not_mem _ _ _
        (extraKeys_not_mapped djangoFields attribute_list attr_map k hk)
  | none =>
      cases createUnknownUsers with
      | false =>
          simp only [abstractAuthenticate,
            get_user_obj_missing djangoFields store username attribute_list
              attr_map hs] at h
          simp at h
      | true =>
          simp only [abstractAuthenticate,
            get_user_obj_create djangoFields store username attribute_list
              attr_map hs, Except.ok.injEq, Prod.mk.injEq,
            Option.some.injEq] at h
          obtain ⟨-, hu⟩ := h
          subst hu
          refine ⟨rfl, ?_⟩
          intro k hk
          simp only [hs]
          exact lookupAssoc_eq_none_of_not_mem _ _
            (extraKeys_not_mapped djangoFields attribute_list attr_map k hk)

/-- Witness for C6: a provider attribute custom:color is attached as a
dynamic attribute and absent from the persisted fields of the freshly
created record. -/
theorem c6_extra_attrs_never_persisted_witness :
    UserObj.dynamic
        ⟨"alice",
         mappedFields defaultDjangoFields
           [("email", "a@x.com"), ("custom:color", "blue")]
           DEFAULT_ATTR_MAPPING,
         extraFields defaultDjangoFields
           [("email", "a@x.com"), ("custom:color", "blue")]
           DEFAULT_ATTR_MAPPING, "a", "i", "r"⟩
      = extraFields defaultDjangoFields
          [("email", "a@x.com"), ("custom:color", "blue")]
          DEFAULT_ATTR_MAPPING :=
  (((c6_extra_attrs_never_persisted defaultDjangoFields true
      DEFAULT_ATTR_MAPPING
      [("email", "a@x.com"), ("custom:color", "blue")] [] "alice"
      "a" "i" "r").2)
    ([⟨"alice",
       mappedFields defaultDjangoFields
         [("email", "a@x.com"), ("custom:color", "blue")]
         DEFAULT_ATTR_MAPPING⟩])
    ⟨"alice",
     mappedFields defaultDjangoFields
       [("email", "a@x.com"), ("custom:color", "blue")]
       DEFAULT_ATTR_MAPPING,
     extraFields defaultDjangoFields
       [("email", "a@x.com"), ("custom:color", "blue")]
       DEFAULT_ATTR_MAPPING, "a", "i", "r"⟩ rfl).1

/-- C7: when `CognitoBackend.authenticate` returns a user, that user
carries the three (non-empty, as issued by the provider) tokens, the
session holds them under ACCESS_TOKEN, ID_TOKEN and REFRESH_TOKEN, and
the session was persisted; when it returns `None`, the session is
exactly as it was — no key written, no save. -/
theorem c7_tokens_bound_to_session (djangoFields : List String)
    (createUnknownUsers : Bool)
    (attr_map attribute_list : List (String × String)) (store : UserStore)
    (username : String) (sess : SessionState) (a i r : String)
    (ha : a ≠ "") (hi : i ≠ "") (hr : r ≠ "") :
    (∀ store' sess' u,
        cognitoBackendAuthenticate djangoFields createUnknownUsers attr_map
            (.success a i r) attribute_list store username sess
          = .ok (store', sess', some u) →
        u.access_token = a ∧ u.id_token = i ∧ u.refresh_token = r ∧
        u.access_token ≠ "" ∧ u.id_token ≠ "" ∧ u.refresh_token ≠ "" ∧
        lookupAssoc sess'.data "ACCESS_TOKEN" = some a ∧
        lookupAssoc sess'.data "ID_TOKEN" = some i ∧
        lookupAssoc sess'.data "REFRESH_TOKEN" = some r ∧
        sess'.saved = true) ∧
    (∀ provider : ProviderAuth, ∀ store' sess',
        cognitoBackendAuthenticate djangoFields createUnknownUsers attr_map
            provider attribute_list store username sess
          = .ok (store', sess', none) →
        sess' = sess) := by
  constructor
  · intro store' sess' u h
    rcases hgu : get_user_obj djangoFields createUnknownUsers store username
        attribute_list attr_map with ⟨s0, u0⟩
    cases u0 with
    | none =>
        simp only [cognitoBackendAuthenticate, abstractAuthenticate, hgu]
          at h
        simp at h
    | some u0 =>
        simp only [cognitoBackendAuthenticate, abstractAuthenticate, hgu,
          Except.ok.injEq, Prod.mk.injEq, Option.some.injEq] at h
        obtain ⟨-, hsess, hu⟩ := h
        subst hsess
        subst hu
        refine ⟨rfl, rfl, rfl, ha, hi, hr, ?_, ?_, ?_, rfl⟩
        · rw [lookupAssoc_insert_of_ne _ _ _ _ (by decide),
              lookupAssoc_insert_of_ne _ _ _ _ (by decide),
              lookupAssoc_insert_self]
        · rw [lookupAssoc_insert_of_ne _ _ _ _ (by decide),
              lookupAssoc_insert_self]
        · rw [lookupAssoc_insert_self]
  · intro provider store' sess' h
    cases provider with
    | success a' i' r' =>
        rcases hgu : get_user_obj djangoFields createUnknownUsers store
            username attribute_list attr_map with ⟨s0, u0⟩
        cases u0 with
        | none =>
            simp only [cognitoBackendAuthenticate, abstractAuthenticate,
              hgu, Except.ok.injEq, Prod.mk.injEq] at h
            exact h.2.1.symm
        | some u0 =>
            simp only [cognitoBackendAuthenticate, abstractAuthenticate,
              hgu] at h
            simp at h
    | failure e =>
        cases hhe : handle_error_response e with
        | error pe =>
            simp only [cognitoBackendAuthenticate, abstractAuthenticate,
              hhe, Except.map] at h
            simp at h
        | ok v =>
            simp only [cognitoBackendAuthenticate, abstractAuthenticate,
              hhe, Except.map, Except.ok.injEq, Prod.mk.injEq] at h
            exact h.2.1.symm

/-- Witness for C7: a concrete successful run binds the three tokens. -/
theorem c7_tokens_bound_to_session_witness :
    lookupAssoc
        (SessionState.data
          ⟨[("ACCESS_TOKEN", "a"), ("ID_TOKEN", "i"),
            ("REFRESH_TOKEN", "r")], true⟩) "REFRESH_TOKEN"
      = some "r" :=
  ((c7_tokens_bound_to_session defaultDjangoFields true DEFAULT_ATTR_MAPPING
      [("email", "e@x.com")] [] "alice" ⟨[], false⟩ "a" "i" "r"
      (by decide) (by decide) (by decide)).1
    [⟨"alice",
      mappedFields defaultDjangoFields [("email", "e@x.com")]
        DEFAULT_ATTR_MAPPING⟩]
    ⟨[("ACCESS_TOKEN", "a"), ("ID_TOKEN", "i"), ("REFRESH_TOKEN", "r")],
     true⟩
    ⟨"alice",
     mappedFields defaultDjangoFields [("email", "e@x.com")]
       DEFAULT_ATTR_MAPPING,
     extraFields defaultDjangoFields [("email", "e@x.com")]
       DEFAULT_ATTR_MAPPING, "a", "i", "r"⟩
    rfl).2.2.2.2.2.2.2.2.1

end Djwarrant
